import Mathlib

/-!
A shallow embedding of the request-building / response-parsing /
hierarchy-navigation core of the msl-kcdb client library
(src/msl/kcdb/classes.py, general_physics.py, chemistry_biology.py,
ionizing_radiation.py and src/kcdb/reference_data.py), together with
theorems settling the claims about it.

Modelling conventions:
* Python `int` is `Int`, Python `str` is `String`.
* A JSON value that may be `null` is an `Option`.
* The network is external: each navigator method is embedded as a function
  of its arguments and of the data the server would return; a `Bool`
  component records whether the HTTP endpoint is contacted, so that
  "returns empty without calling the endpoint" is expressible.
* Fallible Python code (raising `ValueError`, `AssertionError`,
  `TypeError`) is embedded in `Except String`.
-/

deriving instance DecidableEq for Except

namespace MslKcdb

/-- `Domain` dataclass of classes.py: `code`, `name`. -/
structure Domain where
  code : String
  name : String
deriving DecidableEq

/-- `MetrologyArea` dataclass of classes.py: base fields `id`, `label`,
`value` plus `domain`. -/
structure MetrologyArea where
  id : Int
  label : String
  value : String
  domain : Domain
deriving DecidableEq

/-- `Branch` dataclass of classes.py: base fields plus `metrology_area`. -/
structure Branch where
  id : Int
  label : String
  value : String
  metrology_area : MetrologyArea
deriving DecidableEq

/-- `Service` dataclass of classes.py: base fields plus `branch` and
`physics_code`. -/
structure Service where
  id : Int
  label : String
  value : String
  branch : Branch
  physics_code : String
deriving DecidableEq

/-- `SubService` dataclass of classes.py: base fields plus `physics_code`
and `service`. -/
structure SubService where
  id : Int
  label : String
  value : String
  physics_code : String
  service : Service
deriving DecidableEq

/-- `IndividualService` dataclass of classes.py: base fields plus
`physics_code` and `sub_service`. -/
structure IndividualService where
  id : Int
  label : String
  value : String
  physics_code : String
  sub_service : SubService
deriving DecidableEq

/-- `Country` dataclass of classes.py (inherits the `ReferenceData` base
fields and adds none). -/
structure Country where
  id : Int
  label : String
  value : String
deriving DecidableEq

/-- `Analyte` dataclass of classes.py (base fields only). -/
structure Analyte where
  id : Int
  label : String
  value : String
deriving DecidableEq

/-- `Category` dataclass of classes.py (base fields only). -/
structure Category where
  id : Int
  label : String
  value : String
deriving DecidableEq

/-- `Nuclide` dataclass of classes.py (base fields only). -/
structure Nuclide where
  id : Int
  label : String
  value : String
deriving DecidableEq

/-- `Medium` dataclass of classes.py: base fields plus `branch`. -/
structure Medium where
  id : Int
  label : String
  value : String
  branch : Branch
deriving DecidableEq

/-- `Source` dataclass of classes.py: base fields plus `branch`. -/
structure Source where
  id : Int
  label : String
  value : String
  branch : Branch
deriving DecidableEq

/-- `Quantity` dataclass of classes.py: base fields plus `branch`.
Python is dynamically typed and `IonizingRadiation.quantities` builds a
`Quantity` by keyword pass-through (`Quantity(branch=branch, **d)`) from a
JSON record whose `label` key may be `null`, so the stored label is
embedded as `Option String` (`none` models Python `None`). -/
structure Quantity where
  id : Int
  label : Option String
  value : String
  branch : Branch
deriving DecidableEq

/-- `NonIonizingQuantity` dataclass of classes.py (base fields only;
`KCDB.non_ionizing_quantities` always passes `label=""`). -/
structure NonIonizingQuantity where
  id : Int
  label : String
  value : String
deriving DecidableEq

/-- One record of the `"referenceData"` array returned by a reference-data
endpoint whose `label` is a plain string (branch/service/subService/
individualService/radiationMedium/radiationSource records). -/
structure RefRecord where
  id : Int
  label : String
  value : String
deriving DecidableEq

/-- One record of the `"referenceData"` array returned by the `/quantity`
endpoint: its `label` may be JSON `null` (`none`). -/
structure QuantityRecord where
  id : Int
  label : Option String
  value : String
deriving DecidableEq

/-- `IonizingRadiation.mediums` of ionizing_radiation.py. `server` is the
undifferentiated list the `/radiationMedium` endpoint would return; the
`Bool` component records whether that endpoint is contacted. The method
returns empty without a request unless the branch label is `"RAD"`,
`"DOS"` or `"NEU"`, and otherwise filters the list by id range and
attaches the branch to every kept record. -/
def mediums (branch : Branch) (server : List RefRecord) : Bool × List Medium :=
  if branch.label ∉ (["RAD", "DOS", "NEU"] : List String) then
    (false, [])
  else if branch.label = "RAD" then
    (true, (server.filter (fun d => d.id < 17)).map (fun d => ⟨d.id, d.label, d.value, branch⟩))
  else if branch.label = "DOS" then
    (true, (server.filter (fun d => 17 ≤ d.id ∧ d.id < 24)).map (fun d => ⟨d.id, d.label, d.value, branch⟩))
  else
    (true, (server.filter (fun d => 24 ≤ d.id)).map (fun d => ⟨d.id, d.label, d.value, branch⟩))

/-- C1: `IonizingRadiation.mediums` partitions the server's
undifferentiated medium list by id range keyed to the branch label:
`"RAD"` keeps exactly the records with `id < 17`, `"DOS"` exactly those
with `17 ≤ id < 24`, `"NEU"` exactly those with `id ≥ 24` (each attached
to the given branch, order preserved, the endpoint being contacted), and
any other branch label yields the empty list without calling the
endpoint. -/
theorem mediums_partition (branch : Branch) (server : List RefRecord) :
    (branch.label = "RAD" →
      mediums branch server =
        (true, (server.filter (fun d => d.id < 17)).map (fun d => ⟨d.id, d.label, d.value, branch⟩)))
    ∧ (branch.label = "DOS" →
      mediums branch server =
        (true, (server.filter (fun d => 17 ≤ d.id ∧ d.id < 24)).map
          (fun d => ⟨d.id, d.label, d.value, branch⟩)))
    ∧ (branch.label = "NEU" →
      mediums branch server =
        (true, (server.filter (fun d => 24 ≤ d.id)).map (fun d => ⟨d.id, d.label, d.value, branch⟩)))
    ∧ (branch.label ≠ "RAD" → branch.label ≠ "DOS" → branch.label ≠ "NEU" →
      mediums branch server = (false, [])) := by
  refine ⟨fun h => ?_, fun h => ?_, fun h => ?_, fun h1 h2 h3 => ?_⟩ <;>
    simp [mediums, *]

/-- A concrete Ionizing Radiation metrology area used for evaluation. -/
def areaRI : MetrologyArea :=
  ⟨9, "RI", "Ionizing Radiation", ⟨"RADIATION", "Ionizing radiation"⟩⟩

/-- A concrete `RAD` branch. -/
def branchRAD : Branch := ⟨34, "RAD", "Radioactivity", areaRI⟩

/-- A concrete `DOS` branch. -/
def branchDOS : Branch := ⟨32, "DOS", "Dosimetry", areaRI⟩

/-- A concrete `NEU` branch. -/
def branchNEU : Branch := ⟨35, "NEU", "Neutron Measurements", areaRI⟩

/-- A concrete branch whose label is not an Ionizing Radiation one. -/
def branchEM : Branch :=
  ⟨6, "EM/RF", "Radio frequency measurements",
    ⟨2, "EM", "Electricity and Magnetism", ⟨"PHYSICS", "General physics"⟩⟩⟩

/-- The synthetic medium list with ids `[5, 16, 17, 23, 24, 30]`. -/
def mediumFixture : List RefRecord :=
  [⟨5, "5", "Aerosol"⟩, ⟨16, "16", "Tissue"⟩, ⟨17, "17", "Water"⟩,
    ⟨23, "23", "Graphite"⟩, ⟨24, "24", "Polyethylene"⟩, ⟨30, "30", "Air"⟩]

theorem mediums_partition_witness :
    mediums branchRAD mediumFixture =
      (true, [⟨5, "5", "Aerosol", branchRAD⟩, ⟨16, "16", "Tissue", branchRAD⟩])
    ∧ mediums branchDOS mediumFixture =
      (true, [⟨17, "17", "Water", branchDOS⟩, ⟨23, "23", "Graphite", branchDOS⟩])
    ∧ mediums branchNEU mediumFixture =
      (true, [⟨24, "24", "Polyethylene", branchNEU⟩, ⟨30, "30", "Air", branchNEU⟩])
    ∧ mediums branchEM mediumFixture = (false, []) := by
  refine ⟨?_, ?_, ?_, ?_⟩
  · rw [(mediums_partition branchRAD mediumFixture).1 (by decide)]; decide
  · rw [(mediums_partition branchDOS mediumFixture).2.1 (by decide)]; decide
  · rw [(mediums_partition branchNEU mediumFixture).2.2.1 (by decide)]; decide
  · exact (mediums_partition branchEM mediumFixture).2.2.2 (by decide) (by decide) (by decide)

/-- `GeneralPhysics.services` of general_physics.py. `server` is the list
the `/service` endpoint would return for this branch; the `Bool` component
records whether that endpoint is contacted. Branch ids 32, 33 and 34
(Dosimetry, Radioactivity, Neutron Measurements) short-circuit to the
empty list before any request; otherwise every record becomes a `Service`
whose `physics_code` is the record's own label
(`Service(branch=branch, physics_code=data["label"], **data)`). -/
def services (branch : Branch) (server : List RefRecord) : Bool × List Service :=
  if branch.id ∈ ([32, 33, 34] : List Int) then
    (false, [])
  else
    (true, server.map (fun d => ⟨d.id, d.label, d.value, branch, d.label⟩))

/-- `GeneralPhysics.sub_services` of general_physics.py: every record of
the `/subService` response becomes a `SubService` whose `physics_code` is
`service.physics_code + "." + data["label"]`. -/
def sub_services (service : Service) (server : List RefRecord) : List SubService :=
  server.map (fun d => ⟨d.id, d.label, d.value, service.physics_code ++ "." ++ d.label, service⟩)

/-- The element construction of `GeneralPhysics.individual_services`:
`IndividualService(sub_service=..., physics_code=f"{sub_service.physics_code}.{data['label']}", **data)`. -/
def IndividualService_of (sub : SubService) (d : RefRecord) : IndividualService :=
  ⟨d.id, d.label, d.value, sub.physics_code ++ "." ++ d.label, sub⟩

/-- `GeneralPhysics.individual_services` of general_physics.py. The
response is modelled by its HTTP `status` and the `"referenceData"` array
`server` it would carry on success; `response.ok` in the requests library
is `status < 400`. On `ok` the records are deserialized; otherwise the
method asserts `sub_service.id in [104, 151]` (an `AssertionError` when
the assertion fails) and returns the empty list. -/
def individual_services (sub : SubService) (status : Int) (server : List RefRecord) :
    Except String (List IndividualService) :=
  if status < 400 then
    .ok (server.map (IndividualService_of sub))
  else if sub.id ∈ ([104, 151] : List Int) then
    .ok []
  else
    .error "AssertionError"

/-- C2: every `IndividualService` produced by walking the General Physics
hierarchy (`services`, then `sub_services`, then `individual_services`)
has a `physics_code` equal to the dot-join of the own labels along the
chain in top-down order: the `Service`'s `physics_code` is its own label,
the `SubService`'s is `service.physics_code ++ "." ++` its own label, the
`IndividualService`'s is `sub_service.physics_code ++ "." ++` its own
label, and therefore the composed code is
`service.label ++ "." ++ sub_service.label ++ "." ++ individual_service.label`. -/
theorem physics_code_composition (branch : Branch) (sData ssData iData : List RefRecord)
    (st : Int) (s : Service) (ss : SubService) (l : List IndividualService)
    (i : IndividualService) (hs : s ∈ (services branch sData).2)
    (hss : ss ∈ sub_services s ssData) (hst : st < 400)
    (hok : individual_services ss st iData = .ok l) (hi : i ∈ l) :
    s.physics_code = s.label
    ∧ ss.physics_code = s.physics_code ++ "." ++ ss.label
    ∧ i.physics_code = ss.physics_code ++ "." ++ i.label
    ∧ i.physics_code = s.label ++ "." ++ ss.label ++ "." ++ i.label := by
  have hs2 : s.physics_code = s.label := by
    by_cases hb : branch.id ∈ ([32, 33, 34] : List Int)
    · rw [services, if_pos hb] at hs
      simp at hs
    · rw [services, if_neg hb] at hs
      simp only [List.mem_map] at hs
      obtain ⟨d, -, hd⟩ := hs
      rw [← hd]
  have hss2 : ss.physics_code = s.physics_code ++ "." ++ ss.label := by
    simp only [sub_services, List.mem_map] at hss
    obtain ⟨d, -, hd⟩ := hss
    rw [← hd]
  have hl : iData.map (IndividualService_of ss) = l := by
    rw [individual_services, if_pos hst] at hok
    exact Except.ok.inj hok
  have hi2 : i.physics_code = ss.physics_code ++ "." ++ i.label := by
    rw [← hl] at hi
    simp only [List.mem_map] at hi
    obtain ⟨d, -, hd⟩ := hi
    rw [← hd]
    rfl
  exact ⟨hs2, hss2, hi2, by rw [hi2, hss2, hs2]⟩

/-- A concrete General Physics service used for evaluation: label `"11"`. -/
def service11 : Service := ⟨16, "11", "Radio frequency measurements", branchEM, "11"⟩

/-- A concrete sub-service below `service11`: label `"3"`. -/
def subService113 : SubService := ⟨33, "3", "Scattering parameters (vectors)", "11.3", service11⟩

theorem physics_code_composition_witness :
    (⟨225, "3", "Transmission coefficient", "11.3.3", subService113⟩ : IndividualService).physics_code
      = "11" ++ "." ++ "3" ++ "." ++ "3" :=
  (physics_code_composition branchEM [⟨16, "11", "Radio frequency measurements"⟩]
    [⟨33, "3", "Scattering parameters (vectors)"⟩] [⟨225, "3", "Transmission coefficient"⟩]
    200 service11 subService113
    [⟨225, "3", "Transmission coefficient", "11.3.3", subService113⟩]
    ⟨225, "3", "Transmission coefficient", "11.3.3", subService113⟩
    (by decide) (by decide) (by decide) (by decide) (by decide)).2.2.2

/-- C4: when the server responds to the `individualService` lookup with a
4xx client error, `GeneralPhysics.individual_services` returns the empty
list exactly when the sub-service id is 104 or 151; any other sub-service
id receiving such an error fails with an `AssertionError` instead of
silently returning empty; and on a successful response the deserialized
individual services are returned. -/
theorem individual_services_404_handling (sub : SubService) (status : Int)
    (server : List RefRecord) :
    (400 ≤ status → status < 500 →
      (individual_services sub status server = .ok [] ↔ (sub.id = 104 ∨ sub.id = 151)))
    ∧ (400 ≤ status → status < 500 → sub.id ≠ 104 → sub.id ≠ 151 →
      individual_services sub status server = .error "AssertionError")
    ∧ (status < 400 →
      individual_services sub status server = .ok (server.map (IndividualService_of sub))) := by
  have hnot : 400 ≤ status → ¬ status < 400 := by omega
  refine ⟨fun h4 _ => ?_, fun h4 _ h104 h151 => ?_, fun hok => ?_⟩
  · by_cases hmem : sub.id ∈ ([104, 151] : List Int)
    · simp only [individual_services, if_neg (hnot h4), if_pos hmem]
      simpa using hmem
    · simp only [individual_services, if_neg (hnot h4), if_neg hmem]
      constructor
      · intro h; cases h
      · intro h; exact absurd (by simpa using h) hmem
  · have hmem : sub.id ∉ ([104, 151] : List Int) := by
      intro h
      rcases List.mem_cons.mp h with h | h
      · exact h104 h
      · exact h151 (by simpa using h)
    rw [individual_services, if_neg (hnot h4), if_neg hmem]
  · rw [individual_services, if_pos hok]

theorem individual_services_404_handling_witness :
    individual_services ⟨104, "4", "Not attributed 1", "11.4", service11⟩ 404 [] = .ok []
    ∧ individual_services subService113 404 [] = .error "AssertionError"
    ∧ individual_services subService113 200 [⟨225, "3", "Transmission coefficient"⟩]
      = .ok [⟨225, "3", "Transmission coefficient", "11.3.3", subService113⟩] := by
  refine ⟨?_, ?_, ?_⟩
  · exact ((individual_services_404_handling ⟨104, "4", "Not attributed 1", "11.4", service11⟩
      404 []).1 (by decide) (by decide)).mpr (Or.inl rfl)
  · exact (individual_services_404_handling subService113 404 []).2.1
      (by decide) (by decide) (by decide) (by decide)
  · rw [(individual_services_404_handling subService113 200
      [⟨225, "3", "Transmission coefficient"⟩]).2.2 (by decide)]
    decide

/-- The argument accepted by `KCDB._to_countries` in classes.py:
`str | Country | Iterable[str | Country]`. -/
inductive CountriesArg where
  | str : String → CountriesArg
  | country : Country → CountriesArg
  | seq : List (String ⊕ Country) → CountriesArg
deriving DecidableEq

/-- `KCDB._to_countries` of classes.py: a `str` yields a singleton, a
`Country` yields its label as a singleton, and an iterable yields
`[c if isinstance(c, str) else c.label for c in countries]`. -/
def to_countries : CountriesArg → List String
  | .str s => [s]
  | .country c => [c.label]
  | .seq l => l.map (fun item => match item with | .inl s => s | .inr c => c.label)

/-- C6: country normalization yields a flat list of plain label strings: a
single string `s` gives `[s]`, a single `Country` `c` gives `[c.label]`,
and a sequence mixing both keeps each string as-is and replaces each
`Country` by its label, in input order. -/
theorem to_countries_normalization :
    (∀ s : String, to_countries (.str s) = [s])
    ∧ (∀ c : Country, to_countries (.country c) = [c.label])
    ∧ (∀ l : List (String ⊕ Country),
        to_countries (.seq l) = l.map (Sum.elim id Country.label))
    ∧ to_countries (.seq [.inl "CH", .inr ⟨34, "FR", "France"⟩, .inl "JP"])
      = ["CH", "FR", "JP"] := by
  refine ⟨fun s => rfl, fun c => rfl, fun l => ?_, rfl⟩
  simp only [to_countries]
  refine List.map_congr_left (fun item _ => ?_)
  cases item <;> rfl

/-- `RefData` of the reference_data.py module (its frozen dataclass base
for reference records): `id`, `label`, `value`. -/
structure RefData where
  id : Int
  label : String
  value : String
deriving DecidableEq

/-- `ReferenceData.find` of reference_data.py: iterate over the items and
return the first whose `id` equals the requested one; if none matches,
raise `ValueError(f"ID {id} cannot be found")`. -/
def find : List RefData → Int → Except String RefData
  | [], i => .error ("ID " ++ toString i ++ " cannot be found")
  | x :: xs, i => if x.id = i then .ok x else find xs i

/-- C7: `find` returns the first item of the sequence whose `id` equals
the given id whenever one exists (everything returned matches and lies in
the list, and the match after a prefix of non-matches is the one
returned), and when no item matches it fails with a `ValueError` whose
message names the missing id — it never silently returns nothing. -/
theorem find_first_match_or_error (l : List RefData) (i : Int) :
    (∀ x : RefData, find l i = .ok x → x ∈ l ∧ x.id = i)
    ∧ (∀ l1 : List RefData, ∀ x : RefData, ∀ l2 : List RefData,
        l = l1 ++ x :: l2 → (∀ y ∈ l1, y.id ≠ i) → x.id = i → find l i = .ok x)
    ∧ ((∀ y ∈ l, y.id ≠ i) →
        find l i = .error ("ID " ++ toString i ++ " cannot be found")) := by
  induction l with
  | nil =>
    refine ⟨?_, ?_, fun _ => rfl⟩
    · intro x hx
      rw [find] at hx
      cases hx
    · intro l1 x l2 hsplit _ _
      exact absurd hsplit (by simp)
  | cons a rest ih =>
    refine ⟨fun x hx => ?_, fun l1 x l2 hsplit hpre hx => ?_, fun hnone => ?_⟩
    · rw [find] at hx
      by_cases ha : a.id = i
      · rw [if_pos ha] at hx
        cases hx
        exact ⟨List.mem_cons_self a rest, ha⟩
      · rw [if_neg ha] at hx
        obtain ⟨hmem, hid⟩ := ih.1 x hx
        exact ⟨List.mem_cons_of_mem a hmem, hid⟩
    · match l1, hsplit with
      | [], hsplit =>
        cases hsplit
        rw [find, if_pos hx]
      | b :: l1t, hsplit =>
        have hb : b = a := by
          have := congrArg (fun t => t.head?) hsplit
          simpa using this.symm
        have htail : rest = l1t ++ x :: l2 := by
          have := congrArg (fun t => t.tail) hsplit
          simpa using this
        have hane : a.id ≠ i := by
          rw [← hb]
          exact hpre b (List.mem_cons_self b l1t)
        rw [find, if_neg hane]
        exact ih.2.1 l1t x l2 htail (fun y hy => hpre y (List.mem_cons_of_mem b hy)) hx
    · have hane : a.id ≠ i := hnone a (List.mem_cons_self a rest)
      rw [find, if_neg hane]
      exact ih.2.2 (fun y hy => hnone y (List.mem_cons_of_mem a hy))

theorem find_first_match_or_error_witness :
    find [⟨1, "a", "A"⟩, ⟨2, "b", "B"⟩, ⟨2, "c", "C"⟩] 2 = .ok ⟨2, "b", "B"⟩
    ∧ find [⟨1, "a", "A"⟩, ⟨2, "b", "B"⟩] 5 = .error "ID 5 cannot be found" := by
  constructor
  · exact (find_first_match_or_error [⟨1, "a", "A"⟩, ⟨2, "b", "B"⟩, ⟨2, "c", "C"⟩] 2).2.1
      [⟨1, "a", "A"⟩] ⟨2, "b", "B"⟩ [⟨2, "c", "C"⟩] rfl (by decide) rfl
  · exact (find_first_match_or_error [⟨1, "a", "A"⟩, ⟨2, "b", "B"⟩] 5).2.2 (by decide)

/-- The persistent instance state of a `KCDB` navigator: the stored
`_timeout` attribute (`None` is the no-timeout sentinel). Numeric values
are modelled as rationals; `float(value)` is the number itself. -/
structure KCDBState where
  _timeout : Option ℚ
deriving DecidableEq

/-- The `timeout` property setter of classes.py:
`if value is None or value < 0: self._timeout = None else: self._timeout = float(value)`. -/
def timeout_set (_s : KCDBState) (value : Option ℚ) : KCDBState :=
  match value with
  | none => ⟨none⟩
  | some v => if v < 0 then ⟨none⟩ else ⟨some v⟩

/-- The `timeout` property getter of classes.py: `return self._timeout`. -/
def timeout_get (s : KCDBState) : Option ℚ :=
  s._timeout

/-- C10: assigning `v` to the `timeout` property stores `None` when `v` is
`None` or negative (a negative assignment is silently converted to the
no-timeout sentinel rather than rejected) and stores `float(v)` otherwise,
and the getter returns exactly the stored value. -/
theorem timeout_semantics (s : KCDBState) (v : ℚ) :
    timeout_get (timeout_set s none) = none
    ∧ (v < 0 → timeout_get (timeout_set s (some v)) = none)
    ∧ (0 ≤ v → timeout_get (timeout_set s (some v)) = some v) := by
  refine ⟨rfl, fun hneg => ?_, fun hpos => ?_⟩
  · simp [timeout_set, timeout_get, if_pos hneg]
  · simp [timeout_set, timeout_get, if_neg (not_lt.mpr hpos)]

theorem timeout_semantics_witness :
    timeout_get (timeout_set ⟨some 30⟩ (some (-1))) = none
    ∧ timeout_get (timeout_set ⟨none⟩ (some 100)) = some 100 :=
  ⟨(timeout_semantics ⟨some 30⟩ (-1)).2.1 (by norm_num),
    (timeout_semantics ⟨none⟩ 100).2.2 (by norm_num)⟩

/-- A value that a search request body can hold: Python
`bool | int | str | list[str]`, plus `null` for a `None` slipped through
dynamically (a `Quantity` whose stored label is `None`). -/
inductive ReqValue where
  | b : Bool → ReqValue
  | i : Int → ReqValue
  | s : String → ReqValue
  | ls : List String → ReqValue
  | null : ReqValue
deriving DecidableEq

/-- Whether an `Except` computation succeeded. -/
def is_ok {α : Type} : Except String α → Bool
  | .ok _ => true
  | .error _ => false

/-- `KCDB.MAX_PAGE_SIZE` of classes.py. -/
def MAX_PAGE_SIZE : Int := 10000

/-- `KCDB._check_page_info` of classes.py: raise `ValueError` when
`page < 0` or when `page_size < 1 or page_size > KCDB.MAX_PAGE_SIZE`. -/
def check_page_info (page page_size : Int) : Except String Unit :=
  if page < 0 then
    .error ("Invalid page value, " ++ toString page ++ ". Must be >= 0")
  else if page_size < 1 ∨ page_size > MAX_PAGE_SIZE then
    .error ("Invalid page size, " ++ toString page_size ++ ". Must be in the range [1, "
      ++ toString MAX_PAGE_SIZE ++ "]")
  else
    .ok ()

/-- Python truthiness of an optional string (`None` and `""` are falsy). -/
def truthy_str : Option String → Bool
  | none => false
  | some s => if s = "" then false else true

/-- Python truthiness of an optional `str`-or-entity parameter (`None` and
`""` are falsy; a dataclass instance is always truthy). -/
def truthy_str_or {α : Type} : Option (String ⊕ α) → Bool
  | none => false
  | some (.inl s) => if s = "" then false else true
  | some (.inr _) => true

/-- Python truthiness of the `countries` parameter (`None`, `""` and an
empty sequence are falsy; a `Country` instance is truthy). -/
def truthy_countries : Option CountriesArg → Bool
  | none => false
  | some (.str s) => if s = "" then false else true
  | some (.country _) => true
  | some (.seq l) => if l = [] then false else true

/-- Python truthiness of an optional list parameter. -/
def truthy_list : Option (List String) → Bool
  | none => false
  | some l => if l = [] then false else true

/-- The `physics_code` argument of `GeneralPhysics.search`:
`str | Service | SubService | IndividualService`. -/
inductive PhysicsCodeArg where
  | str : String → PhysicsCodeArg
  | service : Service → PhysicsCodeArg
  | sub_service : SubService → PhysicsCodeArg
  | individual_service : IndividualService → PhysicsCodeArg
deriving DecidableEq

/-- Python truthiness of the optional `physics_code` parameter. -/
def truthy_physics_code : Option PhysicsCodeArg → Bool
  | none => false
  | some (.str s) => if s = "" then false else true
  | some _ => true

/-- `KCDB._to_label` applied to a `str | MetrologyArea` argument. -/
def to_label_area : String ⊕ MetrologyArea → String
  | .inl s => s
  | .inr a => a.label

/-- `KCDB._to_label` applied to a `str | Analyte` argument. -/
def to_label_analyte : String ⊕ Analyte → String
  | .inl s => s
  | .inr a => a.label

/-- An optional request-body segment `if param: request[k] = _to_label(param)`
for a `str`-or-entity parameter, where `lab` embeds `_to_label` on the
entity alternative. -/
def label_entry {α : Type} (k : String) (lab : α → ReqValue)
    (o : Option (String ⊕ α)) : List (String × ReqValue) :=
  match o with
  | none => []
  | some (.inl s) => if s = "" then [] else [(k, .s s)]
  | some (.inr a) => [(k, lab a)]

/-- The `analyteLabel` segment of `ChemistryBiology.search`: unlike every
other optional parameter it is gated on `analyte is not None`, so an empty
string still produces the key. -/
def analyte_entry (o : Option (String ⊕ Analyte)) : List (String × ReqValue) :=
  match o with
  | none => []
  | some x => [("analyteLabel", .s (to_label_analyte x))]

/-- The `countries` segment: `if countries: request["countries"] = _to_countries(countries)`. -/
def countries_entry (o : Option CountriesArg) : List (String × ReqValue) :=
  match o with
  | none => []
  | some c => if truthy_countries (some c) then [("countries", .ls (to_countries c))] else []

/-- An optional string-valued segment `if param: request[k] = param`
(also used for the dates, where `str(...)` of the embedded string is
itself). -/
def str_entry (k : String) (o : Option String) : List (String × ReqValue) :=
  match o with
  | none => []
  | some s => if s = "" then [] else [(k, .s s)]

/-- The `physicsCode` segment of `GeneralPhysics.search`: a string is used
as-is, an entity contributes its `physics_code`. -/
def physics_code_entry (o : Option PhysicsCodeArg) : List (String × ReqValue) :=
  match o with
  | none => []
  | some (.str s) => if s = "" then [] else [("physicsCode", .s s)]
  | some (.service sv) => [("physicsCode", .s sv.physics_code)]
  | some (.sub_service sb) => [("physicsCode", .s sb.physics_code)]
  | some (.individual_service ind) => [("physicsCode", .s ind.physics_code)]

/-- An optional list-valued segment of `KCDB.quick_search`:
`if filters: request[k] = list(filters)`. -/
def list_entry (k : String) (o : Option (List String)) : List (String × ReqValue) :=
  match o with
  | none => []
  | some l => if l = [] then [] else [(k, .ls l)]

/-- The keyword parameters of `GeneralPhysics.search`, in signature
order. -/
structure GPSearchParams where
  metrology_area : String ⊕ MetrologyArea
  branch : Option (String ⊕ Branch)
  countries : Option CountriesArg
  keywords : Option String
  page : Int
  page_size : Int
  physics_code : Option PhysicsCodeArg
  public_date_from : Option String
  public_date_to : Option String
  show_table : Bool
deriving DecidableEq

/-- The keyword parameters of `ChemistryBiology.search`, in signature
order. -/
structure ChemBioSearchParams where
  analyte : Option (String ⊕ Analyte)
  category : Option (String ⊕ Category)
  countries : Option CountriesArg
  keywords : Option String
  metrology_area : String ⊕ MetrologyArea
  page : Int
  page_size : Int
  public_date_from : Option String
  public_date_to : Option String
  show_table : Bool
deriving DecidableEq

/-- The keyword parameters of `IonizingRadiation.search`, in signature
order. -/
structure RadiationSearchParams where
  branch : Option (String ⊕ Branch)
  countries : Option CountriesArg
  keywords : Option String
  medium : Option (String ⊕ Medium)
  metrology_area : String ⊕ MetrologyArea
  nuclide : Option (String ⊕ Nuclide)
  page : Int
  page_size : Int
  public_date_from : Option String
  public_date_to : Option String
  quantity : Option (String ⊕ Quantity)
  show_table : Bool
  source : Option (String ⊕ Source)
deriving DecidableEq

/-- The keyword parameters of `KCDB.quick_search`, in signature order. -/
structure QuickSearchParams where
  excluded_filters : Option (List String)
  included_filters : Option (List String)
  keywords : Option String
  page : Int
  page_size : Int
  show_table : Bool
deriving DecidableEq

/-- The JSON body built by `GeneralPhysics.search` (dict insertion
order). -/
def gp_request (p : GPSearchParams) : List (String × ReqValue) :=
  [("page", .i p.page), ("pageSize", .i p.page_size), ("showTable", .b p.show_table),
    ("metrologyAreaLabel", .s (to_label_area p.metrology_area))]
  ++ label_entry "branchLabel" (fun b : Branch => .s b.label) p.branch
  ++ countries_entry p.countries
  ++ str_entry "keywords" p.keywords
  ++ physics_code_entry p.physics_code
  ++ str_entry "publicDateFrom" p.public_date_from
  ++ str_entry "publicDateTo" p.public_date_to

/-- The JSON body built by `ChemistryBiology.search` (dict insertion
order). -/
def chem_request (q : ChemBioSearchParams) : List (String × ReqValue) :=
  [("page", .i q.page), ("pageSize", .i q.page_size), ("showTable", .b q.show_table),
    ("metrologyAreaLabel", .s (to_label_area q.metrology_area))]
  ++ analyte_entry q.analyte
  ++ label_entry "categoryLabel" (fun c : Category => .s c.label) q.category
  ++ countries_entry q.countries
  ++ str_entry "keywords" q.keywords
  ++ str_entry "publicDateFrom" q.public_date_from
  ++ str_entry "publicDateTo" q.public_date_to

/-- `_to_label` of a stored `Quantity` returns whatever label the
dynamically typed field holds, possibly Python `None`. -/
def quantity_label_value (q : Quantity) : ReqValue :=
  match q.label with
  | some s => .s s
  | none => .null

/-- The JSON body built by `IonizingRadiation.search` (dict insertion
order). -/
def rad_request (r : RadiationSearchParams) : List (String × ReqValue) :=
  [("page", .i r.page), ("pageSize", .i r.page_size), ("showTable", .b r.show_table),
    ("metrologyAreaLabel", .s (to_label_area r.metrology_area))]
  ++ label_entry "branchLabel" (fun b : Branch => .s b.label) r.branch
  ++ countries_entry r.countries
  ++ str_entry "keywords" r.keywords
  ++ label_entry "mediumLabel" (fun m : Medium => .s m.label) r.medium
  ++ label_entry "nuclideLabel" (fun n : Nuclide => .s n.label) r.nuclide
  ++ str_entry "publicDateFrom" r.public_date_from
  ++ str_entry "publicDateTo" r.public_date_to
  ++ label_entry "quantityLabel" quantity_label_value r.quantity
  ++ label_entry "sourceLabel" (fun s : Source => .s s.label) r.source

/-- The JSON body built by `KCDB.quick_search` (dict insertion order). -/
def quick_request (p : QuickSearchParams) : List (String × ReqValue) :=
  [("page", .i p.page), ("pageSize", .i p.page_size), ("showTable", .b p.show_table)]
  ++ list_entry "excludedFilters" p.excluded_filters
  ++ list_entry "includedFilters" p.included_filters
  ++ str_entry "keywords" p.keywords

/-- `GeneralPhysics.search` up to the POST: `_check_page_info` runs before
the body is built, so a validation failure yields the error and no body. -/
def gp_search (p : GPSearchParams) : Except String (List (String × ReqValue)) :=
  match check_page_info p.page p.page_size with
  | .error e => .error e
  | .ok _ => .ok (gp_request p)

/-- `ChemistryBiology.search` up to the POST. -/
def chem_search (q : ChemBioSearchParams) : Except String (List (String × ReqValue)) :=
  match check_page_info q.page q.page_size with
  | .error e => .error e
  | .ok _ => .ok (chem_request q)

/-- `IonizingRadiation.search` up to the POST. -/
def rad_search (r : RadiationSearchParams) : Except String (List (String × ReqValue)) :=
  match check_page_info r.page r.page_size with
  | .error e => .error e
  | .ok _ => .ok (rad_request r)

/-- `KCDB.quick_search` up to the POST. -/
def quick_search (p : QuickSearchParams) : Except String (List (String × ReqValue)) :=
  match check_page_info p.page p.page_size with
  | .error e => .error e
  | .ok _ => .ok (quick_request p)

/-- C3: the pagination validation run before any request is built or sent
accepts `(page, page_size)` exactly when `page ≥ 0` and
`1 ≤ page_size ≤ 10000`; every search operation fails exactly when the
validation fails (so no body is produced); and in particular
`page_size = 10000` is accepted while `page_size = 0`, `page_size = 10001`
and `page = -1` are rejected. -/
theorem page_info_validation (page page_size : Int) (p : GPSearchParams)
    (q : ChemBioSearchParams) (r : RadiationSearchParams) (qs : QuickSearchParams) :
    (is_ok (check_page_info page page_size) = true
      ↔ (0 ≤ page ∧ 1 ≤ page_size ∧ page_size ≤ 10000))
    ∧ is_ok (gp_search p) = is_ok (check_page_info p.page p.page_size)
    ∧ is_ok (chem_search q) = is_ok (check_page_info q.page q.page_size)
    ∧ is_ok (rad_search r) = is_ok (check_page_info r.page r.page_size)
    ∧ is_ok (quick_search qs) = is_ok (check_page_info qs.page qs.page_size)
    ∧ is_ok (check_page_info 0 10000) = true
    ∧ is_ok (check_page_info 0 0) = false
    ∧ is_ok (check_page_info 0 10001) = false
    ∧ is_ok (check_page_info (-1) 100) = false := by
  refine ⟨?_, ?_, ?_, ?_, ?_, by decide, by decide, by decide, by decide⟩
  · simp only [check_page_info, MAX_PAGE_SIZE]
    split_ifs with h1 h2 <;> simp [is_ok] <;> omega
  · cases h : check_page_info p.page p.page_size <;> simp [gp_search, h, is_ok]
  · cases h : check_page_info q.page q.page_size <;> simp [chem_search, h, is_ok]
  · cases h : check_page_info r.page r.page_size <;> simp [rad_search, h, is_ok]
  · cases h : check_page_info qs.page qs.page_size <;> simp [quick_search, h, is_ok]

theorem keys_label_entry {α : Type} (k key : String) (lab : α → ReqValue)
    (o : Option (String ⊕ α)) :
    key ∈ (label_entry k lab o).map Prod.fst ↔ (key = k ∧ truthy_str_or o = true) := by
  cases o with
  | none => simp [label_entry, truthy_str_or]
  | some x =>
    cases x with
    | inl s =>
      by_cases hs : s = "" <;> simp [label_entry, truthy_str_or, hs]
    | inr a => simp [label_entry, truthy_str_or]

theorem keys_analyte_entry (key : String) (o : Option (String ⊕ Analyte)) :
    key ∈ (analyte_entry o).map Prod.fst ↔ (key = "analyteLabel" ∧ o.isSome = true) := by
  cases o <;> simp [analyte_entry]

theorem keys_countries_entry (key : String) (o : Option CountriesArg) :
    key ∈ (countries_entry o).map Prod.fst ↔ (key = "countries" ∧ truthy_countries o = true) := by
  cases o with
  | none => simp [countries_entry, truthy_countries]
  | some c => by_cases hc : truthy_countries (some c) = true <;> simp [countries_entry, hc]

theorem keys_str_entry (k key : String) (o : Option String) :
    key ∈ (str_entry k o).map Prod.fst ↔ (key = k ∧ truthy_str o = true) := by
  cases o with
  | none => simp [str_entry, truthy_str]
  | some s => by_cases hs : s = "" <;> simp [str_entry, truthy_str, hs]

theorem keys_physics_code_entry (key : String) (o : Option PhysicsCodeArg) :
    key ∈ (physics_code_entry o).map Prod.fst
      ↔ (key = "physicsCode" ∧ truthy_physics_code o = true) := by
  cases o with
  | none => simp [physics_code_entry, truthy_physics_code]
  | some x =>
    cases x with
    | str s => by_cases hs : s = "" <;> simp [physics_code_entry, truthy_physics_code, hs]
    | service sv => simp [physics_code_entry, truthy_physics_code]
    | sub_service sb => simp [physics_code_entry, truthy_physics_code]
    | individual_service ind => simp [physics_code_entry, truthy_physics_code]

/-- C5 counterexample: the claim that an optional key appears only when
the parameter is truthy fails on `ChemistryBiology.search`, whose
`analyte` parameter is gated on `is not None`: with `analyte=""` (falsy in
Python) the body still contains an `analyteLabel` key. -/
theorem chem_analyte_empty_string_key :
    "analyteLabel" ∈
      (chem_request ⟨some (.inl ""), none, none, none, .inl "QM", 0, 100, none, none, false⟩).map
        Prod.fst
    ∧ truthy_str_or (some (.inl "" : String ⊕ Analyte)) = false := by decide

set_option maxHeartbeats 2000000 in
/-- C5 (amended): a domain search body always contains `page`, `pageSize`,
`showTable` and `metrologyAreaLabel`; every optional parameter contributes
its key exactly when its value is truthy, except `ChemistryBiology`'s
`analyte`, which contributes `analyteLabel` whenever it is not `None`
(even for the falsy empty string); in particular a General Physics search
with only `metrology_area` set produces a body with exactly the keys
`page`, `pageSize`, `showTable`, `metrologyAreaLabel`. -/
theorem search_request_keys (p : GPSearchParams) (q : ChemBioSearchParams) (k : String) :
    (k ∈ (gp_request p).map Prod.fst ↔
      (k = "page" ∨ k = "pageSize" ∨ k = "showTable" ∨ k = "metrologyAreaLabel"
        ∨ (k = "branchLabel" ∧ truthy_str_or p.branch = true)
        ∨ (k = "countries" ∧ truthy_countries p.countries = true)
        ∨ (k = "keywords" ∧ truthy_str p.keywords = true)
        ∨ (k = "physicsCode" ∧ truthy_physics_code p.physics_code = true)
        ∨ (k = "publicDateFrom" ∧ truthy_str p.public_date_from = true)
        ∨ (k = "publicDateTo" ∧ truthy_str p.public_date_to = true)))
    ∧ (k ∈ (chem_request q).map Prod.fst ↔
      (k = "page" ∨ k = "pageSize" ∨ k = "showTable" ∨ k = "metrologyAreaLabel"
        ∨ (k = "analyteLabel" ∧ q.analyte.isSome = true)
        ∨ (k = "categoryLabel" ∧ truthy_str_or q.category = true)
        ∨ (k = "countries" ∧ truthy_countries q.countries = true)
        ∨ (k = "keywords" ∧ truthy_str q.keywords = true)
        ∨ (k = "publicDateFrom" ∧ truthy_str q.public_date_from = true)
        ∨ (k = "publicDateTo" ∧ truthy_str q.public_date_to = true)))
    ∧ (gp_request ⟨.inl "EM", none, none, none, 0, 100, none, none, none, false⟩).map Prod.fst
      = ["page", "pageSize", "showTable", "metrologyAreaLabel"] := by
  refine ⟨?_, ?_, by decide⟩
  · simp only [gp_request, List.map_append, List.mem_append, List.map_cons, List.map_nil,
      List.mem_cons, List.not_mem_nil, or_false, keys_label_entry, keys_countries_entry,
      keys_str_entry, keys_physics_code_entry]
    tauto
  · simp only [chem_request, List.map_append, List.mem_append, List.map_cons, List.map_nil,
      List.mem_cons, List.not_mem_nil, or_false, keys_label_entry, keys_analyte_entry,
      keys_countries_entry, keys_str_entry]
    tauto

/-- `KCDB.non_ionizing_quantities` of classes.py: keep exactly the
`/quantity` records whose `label` is JSON `null` and build each entity
with `label=""`. -/
def non_ionizing_quantities (server : List QuantityRecord) : List NonIonizingQuantity :=
  (server.filter (fun d => d.label = none)).map (fun d => ⟨d.id, "", d.value⟩)

/-- `IonizingRadiation.quantities` of ionizing_radiation.py. `server` is
the undifferentiated `/quantity` list; the `Bool` records whether the
endpoint is contacted. After the branch-label gate the records are
filtered by id range and passed through `Quantity(branch=branch, **d)`,
which stores the raw label unchanged (no `null` → `""` conversion). -/
def quantities (branch : Branch) (server : List QuantityRecord) : Bool × List Quantity :=
  if branch.label ∉ (["RAD", "DOS", "NEU"] : List String) then
    (false, [])
  else if branch.label = "DOS" then
    (true, (server.filter (fun d => d.id < 32)).map (fun d => ⟨d.id, d.label, d.value, branch⟩))
  else if branch.label = "RAD" then
    (true, (server.filter (fun d => 32 ≤ d.id ∧ d.id < 47)).map
      (fun d => ⟨d.id, d.label, d.value, branch⟩))
  else
    (true, (server.filter (fun d => 47 ≤ d.id ∧ d.id < 78)).map
      (fun d => ⟨d.id, d.label, d.value, branch⟩))

/-- C8 counterexample: `IonizingRadiation.quantities` does not convert a
JSON `null` label to `""` — a null-label record whose id falls in the
requested branch's range is deserialized with a `None` label. -/
theorem quantities_null_label_passthrough :
    (quantities branchDOS [⟨5, none, "Absorbed dose"⟩]).2
      = [⟨5, none, "Absorbed dose", branchDOS⟩]
    ∧ (⟨5, none, "Absorbed dose", branchDOS⟩ : Quantity).label ≠ some "" := by decide

/-- C8 (amended): `KCDB.non_ionizing_quantities` is the deserialization
that handles null labels — every entity it produces has `label = ""` —
while `IonizingRadiation.quantities` stores each kept record's raw label
unchanged (so a null label stays null) and only keeps records with
`id < 78` (every null-label record the server actually serves has
`id ≥ 78`, so none reaches a branch's range). -/
theorem null_label_handling (server : List QuantityRecord) (branch : Branch)
    (nq : NonIonizingQuantity) (q : Quantity) :
    (nq ∈ non_ionizing_quantities server → nq.label = "")
    ∧ (q ∈ (quantities branch server).2 →
      ∃ d ∈ server, q.label = d.label ∧ q.id = d.id ∧ d.id < 78) := by
  constructor
  · intro hnq
    simp only [non_ionizing_quantities, List.mem_map] at hnq
    obtain ⟨d, -, hd⟩ := hnq
    rw [← hd]
  · intro hq
    by_cases hg : branch.label ∉ (["RAD", "DOS", "NEU"] : List String)
    · rw [quantities, if_pos hg] at hq
      simp at hq
    · rw [quantities, if_neg hg] at hq
      by_cases hdos : branch.label = "DOS"
      · rw [if_pos hdos] at hq
        simp only [List.mem_map, List.mem_filter] at hq
        obtain ⟨d, ⟨hmem, hid⟩, hd⟩ := hq
        exact ⟨d, hmem, by rw [← hd], by rw [← hd], by
          have := of_decide_eq_true hid
          omega⟩
      · rw [if_neg hdos] at hq
        by_cases hrad : branch.label = "RAD"
        · rw [if_pos hrad] at hq
          simp only [List.mem_map, List.mem_filter] at hq
          obtain ⟨d, ⟨hmem, hid⟩, hd⟩ := hq
          exact ⟨d, hmem, by rw [← hd], by rw [← hd], by
            have := of_decide_eq_true hid
            omega⟩
        · rw [if_neg hrad] at hq
          simp only [List.mem_map, List.mem_filter] at hq
          obtain ⟨d, ⟨hmem, hid⟩, hd⟩ := hq
          exact ⟨d, hmem, by rw [← hd], by rw [← hd], by
            have := of_decide_eq_true hid
            omega⟩

theorem null_label_handling_witness :
    (⟨100, "", "Sound pressure response level"⟩ : NonIonizingQuantity).label = ""
    ∧ ∃ d ∈ ([⟨5, none, "Absorbed dose"⟩] : List QuantityRecord),
      (⟨5, none, "Absorbed dose", branchDOS⟩ : Quantity).label = d.label
      ∧ (⟨5, none, "Absorbed dose", branchDOS⟩ : Quantity).id = d.id ∧ d.id < 78 :=
  ⟨(null_label_handling [⟨100, none, "Sound pressure response level"⟩] branchDOS
      ⟨100, "", "Sound pressure response level"⟩ ⟨5, none, "Absorbed dose", branchDOS⟩).1
      (by decide),
    (null_label_handling [⟨5, none, "Absorbed dose"⟩] branchDOS
      ⟨100, "", "Sound pressure response level"⟩ ⟨5, none, "Absorbed dose", branchDOS⟩).2
      (by decide)⟩

/-- A raw JSON object from a reference-data endpoint, with the three
recognized keys and the names of any additional, unrecognized keys it
carries (Python deserializes such an object by keyword expansion,
`Entity(**data)`). -/
structure RawRecord where
  id : Int
  label : String
  value : String
  extra : List String
deriving DecidableEq

@[simp] theorem is_ok_ok {α : Type} (a : α) : is_ok (Except.ok a : Except String α) = true := rfl

@[simp] theorem is_ok_error {α : Type} (e : String) :
    is_ok (Except.error e : Except String α) = false := rfl

/-- `Country(**data)` of classes.py: the generated dataclass `__init__`
accepts exactly the keywords `id`, `label`, `value`, so any unrecognized
key in the record raises `TypeError`. -/
def Country_of (r : RawRecord) : Except String Country :=
  if r.extra = [] then .ok ⟨r.id, r.label, r.value⟩
  else .error "TypeError: unexpected keyword argument"

/-- `Branch(metrology_area=metrology_area, **data)` of general_physics.py:
any unrecognized key in the record raises `TypeError`. -/
def Branch_of (area : MetrologyArea) (r : RawRecord) : Except String Branch :=
  if r.extra = [] then .ok ⟨r.id, r.label, r.value, area⟩
  else .error "TypeError: unexpected keyword argument"

/-- The list comprehension `[Entity(**data) for data in response.json()["referenceData"]]`:
it deserializes every record, propagating the first failure. -/
def deserialize_all {α : Type} (f : RawRecord → Except String α) :
    List RawRecord → Except String (List α)
  | [] => .ok []
  | r :: rest =>
    match f r with
    | .error e => .error e
    | .ok a =>
      match deserialize_all f rest with
      | .error e => .error e
      | .ok xs => .ok (a :: xs)

/-- `KCDB.countries` of classes.py, as a function of the records the
`/country` endpoint would return. -/
def countries (server : List RawRecord) : Except String (List Country) :=
  deserialize_all Country_of server

/-- `GeneralPhysics.branches` of general_physics.py: metrology areas
labelled `"QM"` or `"RI"` short-circuit to the empty list before any
request (the `Bool` records whether the endpoint is contacted); otherwise
every record of the `/branch` response is deserialized. -/
def gp_branches (area : MetrologyArea) (server : List RawRecord) :
    Bool × Except String (List Branch) :=
  if area.label ∈ (["QM", "RI"] : List String) then
    (false, .ok [])
  else
    (true, deserialize_all (Branch_of area) server)

theorem is_ok_deserialize_all {α : Type} (f : RawRecord → Except String α)
    (hf : ∀ r, is_ok (f r) = true ↔ r.extra = []) (server : List RawRecord) :
    is_ok (deserialize_all f server) = true ↔ ∀ r ∈ server, r.extra = [] := by
  induction server with
  | nil => simp [deserialize_all]
  | cons r rest ih =>
    rw [deserialize_all]
    cases hr : f r with
    | error e =>
      have hne : r.extra ≠ [] := fun h0 => by simpa [hr] using (hf r).mpr h0
      simp [List.forall_mem_cons, hne]
    | ok a =>
      have hre : r.extra = [] := (hf r).mp (by simp [hr])
      cases hrest : deserialize_all f rest with
      | error e =>
        have hnall : ¬ ∀ x ∈ rest, x.extra = [] := fun hall => by
          simpa [hrest] using ih.mpr hall
        simp [List.forall_mem_cons, hre, hnall]
      | ok xs =>
        have hall : ∀ x ∈ rest, x.extra = [] := ih.mp (by simp [hrest])
        simp only [List.forall_mem_cons, is_ok_ok, true_iff]
        exact ⟨hre, hall⟩

/-- C9 counterexample: reference-data deserialization fails — rather than
ignoring the key — when a record carries an unrecognized JSON key, because
the frozen dataclass `__init__` rejects unexpected keywords. -/
theorem countries_unknown_key_rejected :
    countries [⟨58, "NZ", "New Zealand", ["unknownKey"]⟩]
      = .error "TypeError: unexpected keyword argument" := by decide

/-- C9 (amended): deserializing reference-data records into typed entities
succeeds exactly when no record carries an unrecognized JSON key; a record
with an extra key makes the construction fail with a `TypeError` instead
of being ignored (shown for `KCDB.countries` and, away from its `"QM"` /
`"RI"` short-circuit, for `GeneralPhysics.branches`). -/
theorem deserialization_unknown_keys (server : List RawRecord) (area : MetrologyArea) :
    (is_ok (countries server) = true ↔ ∀ r ∈ server, r.extra = [])
    ∧ (area.label ≠ "QM" → area.label ≠ "RI" →
      (is_ok (gp_branches area server).2 = true ↔ ∀ r ∈ server, r.extra = [])) := by
  have hc : ∀ r : RawRecord, is_ok (Country_of r) = true ↔ r.extra = [] := by
    intro r
    by_cases h : r.extra = [] <;> simp [Country_of, h]
  have hb : ∀ r : RawRecord, is_ok (Branch_of area r) = true ↔ r.extra = [] := by
    intro r
    by_cases h : r.extra = [] <;> simp [Branch_of, h]
  constructor
  · exact is_ok_deserialize_all Country_of hc server
  · intro hqm hri
    have hmem : area.label ∉ (["QM", "RI"] : List String) := by
      intro h
      rcases List.mem_cons.mp h with h | h
      · exact hqm h
      · exact hri (by simpa using h)
    rw [gp_branches, if_neg hmem]
    exact is_ok_deserialize_all (Branch_of area) hb server

theorem deserialization_unknown_keys_witness :
    is_ok (gp_branches ⟨2, "EM", "Electricity and Magnetism", ⟨"PHYSICS", "General physics"⟩⟩
      [⟨21, "PR/Fibre", "Fibre optics", []⟩]).2 = true :=
  ((deserialization_unknown_keys [⟨21, "PR/Fibre", "Fibre optics", []⟩]
    ⟨2, "EM", "Electricity and Magnetism", ⟨"PHYSICS", "General physics"⟩⟩).2
    (by decide) (by decide)).mpr (by decide)

end MslKcdb
